/-
Verification of the hexagen tile-generation backend.

Shallow embedding of:
  * backend/scripts/utils/hexGrid.ts   (getHexagonNeighbors, getNeighborsWithinRadiusTwo)
  * backend/src/terrain.ts             (Perlin2D, getHeightAt, getBiomeTemplatePath)
  * backend/src/index.ts               (resolveHexImage, the /api/hexagon GET route,
                                        the /api/hexagons/batch route, /api/generate-tile)
  * the rate-limiter module            (canUserGenerateImage and friends)

Numeric JS values are modelled as exact rationals (ℚ) / integers (ℤ); the
filesystem is modelled as lists of file names per directory; subprocess and
network calls are modelled by boolean oracles in an environment record.
-/
import Mathlib

set_option maxRecDepth 8000

namespace Hexagen

/-! ## Hex grid geometry (backend/scripts/utils/hexGrid.ts) -/

structure HexCoord where
  x : Int
  y : Int
deriving DecidableEq, Repr

/-- `getHexagonNeighbors` from hexGrid.ts.  The four horizontal/vertical
neighbors are unconditional; the two diagonal neighbors are chosen by the
nested sign/parity conditionals of the source (JS `x % 2 === 0` is the same
test as `x % 2 = 0` on `Int.emod` for the even/odd distinction). -/
def getHexagonNeighbors (x y : Int) : List HexCoord :=
  [⟨x - 2, y⟩, ⟨x + 2, y⟩, ⟨x - 1, y⟩, ⟨x + 1, y⟩] ++
  (if x % 2 = 0 then
    (if x < 0 ∧ y < 0 then [⟨x - 1, y + 1⟩, ⟨x + 1, y + 1⟩]
     else if x < 0 ∧ 0 < y then [⟨x - 1, y + 1⟩, ⟨x + 1, y + 1⟩]
     else if 0 < x ∧ y < 0 then [⟨x - 1, y - 1⟩, ⟨x + 1, y - 1⟩]
     else [⟨x - 1, y - 1⟩, ⟨x + 1, y - 1⟩])
   else
    (if x < 0 ∧ y < 0 then [⟨x - 1, y - 1⟩, ⟨x + 1, y - 1⟩]
     else if x < 0 ∧ 0 < y then [⟨x - 1, y - 1⟩, ⟨x + 1, y - 1⟩]
     else if 0 < x ∧ y < 0 then [⟨x - 1, y + 1⟩, ⟨x + 1, y + 1⟩]
     else [⟨x - 1, y + 1⟩, ⟨x + 1, y + 1⟩]))

/-- The string key `"x_y"` used for the visited set. -/
def hexKey (c : HexCoord) : String :=
  toString c.x ++ "_" ++ toString c.y

/-- The `add` closure of `getNeighborsWithinRadiusTwo`: state is the visited
key set plus the result list, in insertion order. -/
def addCoord (x y : Int) (st : List String × List HexCoord) (c : HexCoord) :
    List String × List HexCoord :=
  if hexKey c ∈ st.1 ∨ (c.x = x ∧ c.y = y) then st
  else (hexKey c :: st.1, st.2 ++ [c])

/-- `getNeighborsWithinRadiusTwo` from hexGrid.ts: distance-1 neighbors, then
the neighbors of every distance-1 neighbor, deduplicated via the visited set
and with the center excluded. -/
def getNeighborsWithinRadiusTwo (x y : Int) : List HexCoord :=
  let d1 := getHexagonNeighbors x y
  let st := d1.foldl (addCoord x y) ([], [])
  let st2 := d1.foldl
    (fun s n => (getHexagonNeighbors n.x n.y).foldl (addCoord x y) s) st
  st2.2

/-- The diagonal y-offset actually computed by the source: it depends on the
parity of x and on the signs of x and y (written out from the source's
conditionals; stated for the amended claim C2). -/
def diagOffset (x y : Int) : Int :=
  if x % 2 = 0 then (if x < 0 ∧ y ≠ 0 then 1 else -1)
  else (if x < 0 ∧ y ≠ 0 then -1 else 1)

theorem getHexagonNeighbors_eq (x y : Int) :
    getHexagonNeighbors x y =
      [⟨x - 2, y⟩, ⟨x + 2, y⟩, ⟨x - 1, y⟩, ⟨x + 1, y⟩,
       ⟨x - 1, y + diagOffset x y⟩, ⟨x + 1, y + diagOffset x y⟩] := by
  unfold getHexagonNeighbors diagOffset
  split_ifs <;> first | rfl | (exfalso; omega)

theorem diagOffset_cases (x y : Int) : diagOffset x y = 1 ∨ diagOffset x y = -1 := by
  unfold diagOffset
  by_cases hp : x % 2 = 0 <;> by_cases h : x < 0 ∧ y ≠ 0 <;> simp [hp, h]

/-- The center coordinate is never pushed by `add`. -/
theorem addCoord_not_center (x y : Int) (st : List String × List HexCoord)
    (c : HexCoord) (h : HexCoord.mk x y ∉ st.2) :
    HexCoord.mk x y ∉ (addCoord x y st c).2 := by
  unfold addCoord
  split_ifs with hc
  · exact h
  · simp only [List.mem_append, List.mem_singleton]
    rintro (h1 | h1)
    · exact h h1
    · exact hc (Or.inr ⟨by rw [← h1], by rw [← h1]⟩)

theorem foldl_addCoord_not_center (x y : Int) (l : List HexCoord)
    (st : List String × List HexCoord) (h : HexCoord.mk x y ∉ st.2) :
    HexCoord.mk x y ∉ (l.foldl (addCoord x y) st).2 := by
  induction l generalizing st with
  | nil => exact h
  | cons c l ih => exact ih _ (addCoord_not_center x y st c h)

theorem foldl_nested_not_center (x y : Int) (l : List HexCoord)
    (st : List String × List HexCoord) (h : HexCoord.mk x y ∉ st.2) :
    HexCoord.mk x y ∉
      (l.foldl (fun s n => (getHexagonNeighbors n.x n.y).foldl (addCoord x y) s) st).2 := by
  induction l generalizing st with
  | nil => exact h
  | cons c l ih => exact ih _ (foldl_addCoord_not_center x y _ _ h)

theorem not_center_withinRadiusTwo (x y : Int) :
    HexCoord.mk x y ∉ getNeighborsWithinRadiusTwo x y := by
  unfold getNeighborsWithinRadiusTwo
  exact foldl_nested_not_center x y _ _
    (foldl_addCoord_not_center x y _ ([], []) (by simp))

/-! ## Claims about the hex geometry -/

/-- C2 counterexample: at the even-x coordinate (-2, 1) the code's diagonal
neighbors are (-3, 2) and (-1, 2), i.e. y-offset +1, while the claim says
even x always yields y-offset -1 (which would give (-3, 0)). -/
theorem claim_C2_counterexample :
    (-2 : Int) % 2 = 0 ∧
      HexCoord.mk (-3) 0 ∉ getHexagonNeighbors (-2) 1 ∧
      HexCoord.mk (-3) 2 ∈ getHexagonNeighbors (-2) 1 := by
  decide

/-- C2 amended: the two diagonal neighbors of (x,y) are (x-1, y+d) and
(x+1, y+d) where the offset d depends on the parity of x AND the signs of x
and y: for even x, d = -1 unless x < 0 and y ≠ 0 (then d = +1); for odd x,
d = +1 unless x < 0 and y ≠ 0 (then d = -1).  In particular the claim's
parity-only rule holds for x ≥ 0 but is reversed for x < 0 with y ≠ 0. -/
theorem claim_C2_amended (x y : Int) :
    getHexagonNeighbors x y =
      [⟨x - 2, y⟩, ⟨x + 2, y⟩, ⟨x - 1, y⟩, ⟨x + 1, y⟩,
       ⟨x - 1, y + diagOffset x y⟩, ⟨x + 1, y + diagOffset x y⟩] :=
  getHexagonNeighbors_eq x y

/-- C7: for every integer coordinate, `getHexagonNeighbors` returns exactly 6
pairwise-distinct coordinates and the coordinate itself is not among them. -/
theorem claim_C7_neighbors (x y : Int) :
    (getHexagonNeighbors x y).length = 6 ∧ (getHexagonNeighbors x y).Nodup ∧
      HexCoord.mk x y ∉ getHexagonNeighbors x y := by
  rw [getHexagonNeighbors_eq]
  rcases diagOffset_cases x y with h | h <;> rw [h] <;>
    refine ⟨rfl, ?_, ?_⟩ <;>
      simp [List.nodup_cons, HexCoord.mk.injEq, List.mem_cons] <;> omega

/-- C8 counterexample: (0,0) and (2,5) both have even x, yet their radius-two
neighborhoods have different sizes (20 vs 18), so the cardinality is not a
function of the parity of x alone. -/
theorem claim_C8_counterexample :
    (0 : Int) % 2 = 0 ∧ (2 : Int) % 2 = 0 ∧
      (getNeighborsWithinRadiusTwo 0 0).length = 20 ∧
      (getNeighborsWithinRadiusTwo 2 5).length = 18 := by
  decide

/-- C8 amended: `getNeighborsWithinRadiusTwo` never contains the center
coordinate itself; its cardinality, however, is not determined by the parity
of x alone (it also depends on the signs of x and y, since the diagonal
neighbor rule is sign-dependent): two even-x coordinates may have radius-two
sets of different sizes. -/
theorem claim_C8_amended :
    (∀ x y : Int, HexCoord.mk x y ∉ getNeighborsWithinRadiusTwo x y) ∧
      (getNeighborsWithinRadiusTwo 0 0).length ≠
        (getNeighborsWithinRadiusTwo 2 5).length := by
  refine ⟨not_center_withinRadiusTwo, ?_⟩
  decide

/-! ## Terrain (backend/src/terrain.ts) -/

/-- One step of the linear congruential generator of `generatePermutation`,
with the 32-bit wrap of JS `>>> 0`. -/
def lcgNext (s : Nat) : Nat := (s * 1664525 + 1013904223) % 4294967296

/-- One iteration of the seeded Fisher-Yates loop: JS draws
`rand() = s / 0xffffffff` and swaps index `i` with `j = floor(rand()*(i+1))`;
over exact arithmetic `j = s*(i+1) / 0xffffffff` with Nat (floor) division. -/
def permStep (st : List Nat × Nat) (i : Nat) : List Nat × Nat :=
  let s := lcgNext st.2
  let j := s * (i + 1) / 4294967295
  let perm := st.1
  let vi := perm.getD i 0
  let vj := perm.getD j 0
  ((perm.set i vj).set j vi, s)

/-- `Perlin2D.generatePermutation`: the seeded shuffle of `[0..255]`, with
`i` running from 255 down to 1. -/
def generatePermutation (seed : Nat) : List Nat :=
  ((List.range' 1 255).reverse.foldl permStep (List.range 256, seed % 4294967296)).1

/-- The permutation table of the module-level `new Perlin2D(90210)`. -/
def permutation : List Nat := generatePermutation 90210

/-- The doubled table `p`: `p[i] = permutation[i % 256]` (used only for
`i < 512`). -/
def permTable (i : Nat) : Nat := permutation.getD (i % 256) 0

/-- `Perlin2D.fade`. -/
def fade (t : ℚ) : ℚ := t * t * t * (t * (t * 6 - 15) + 10)

/-- `Perlin2D.lerp`. -/
def lerp (t a b : ℚ) : ℚ := a + t * (b - a)

/-- `Perlin2D.grad`: `h = hash & 3` selects one of the diagonal gradients;
note `h = 1` and `h = 2` both yield `y - x`. -/
def grad (hash : Nat) (x y : ℚ) : ℚ :=
  let h := hash &&& 3
  let u := if h < 2 then x else y
  let v := if h < 2 then y else x
  (if h &&& 1 = 0 then u else -u) + (if h &&& 2 = 0 then v else -v)

/-- `Perlin2D.noise` over exact rationals.  JS `Math.floor(x) & 255` is
`ToInt32` followed by the low 8 bits, which equals `emod 256` of the floor. -/
def noise (x y : ℚ) : ℚ :=
  let X := ((Int.floor x) % 256).toNat
  let Y := ((Int.floor y) % 256).toNat
  let xf := x - Int.floor x
  let yf := y - Int.floor y
  let u := fade xf
  let v := fade yf
  let aa := permTable (permTable X + Y)
  let ab := permTable (permTable X + Y + 1)
  let ba := permTable (permTable (X + 1) + Y)
  let bb := permTable (permTable (X + 1) + Y + 1)
  let x1 := lerp u (grad aa xf yf) (grad ba (xf - 1) yf)
  let x2 := lerp u (grad ab xf (yf - 1)) (grad bb (xf - 1) (yf - 1))
  (lerp v x1 x2 + 1) / 2

/-- `getHeightAt`: offsets (14, 24), 4 octaves starting at frequency 0.05,
persistence 0.5, normalized by the accumulated amplitude.  State is
(value, amplitude, frequency, maxAmplitude). -/
def getHeightAt (x y : Int) : ℚ :=
  let xq : ℚ := (x : ℚ) + 14
  let yq : ℚ := (y : ℚ) + 24
  let st := (List.range 4).foldl
    (fun (st : ℚ × ℚ × ℚ × ℚ) _ =>
      (st.1 + noise (xq * st.2.2.1) (yq * st.2.2.1) * st.2.1,
       st.2.1 * (1/2), st.2.2.1 * 2, st.2.2.2 + st.2.1))
    (0, 1, 1/20, 0)
  st.1 / st.2.2.2

theorem abs_sub_one_of_mem (t : ℚ) (h1 : t ≤ 1) : |t - 1| = 1 - t := by
  rw [abs_of_nonpos (by linarith), neg_sub]

theorem grad_abs_le (hash : Nat) (x y : ℚ) : |grad hash x y| ≤ |x| + |y| := by
  unfold grad
  dsimp only
  split_ifs <;>
    (refine le_trans (abs_add _ _) ?_
     try simp only [abs_neg]
     linarith [abs_nonneg x, abs_nonneg y])

theorem fade_mem (t : ℚ) (h0 : 0 ≤ t) (h1 : t ≤ 1) : 0 ≤ fade t ∧ fade t ≤ 1 := by
  unfold fade
  constructor
  · nlinarith [sq_nonneg t, sq_nonneg (1 - t), mul_nonneg (mul_nonneg h0 h0) h0, sq_nonneg (t - 1)]
  · nlinarith [sq_nonneg t, sq_nonneg (1 - t), mul_nonneg (mul_nonneg (by linarith : (0:ℚ) ≤ 1 - t) (by linarith : (0:ℚ) ≤ 1 - t)) (by linarith : (0:ℚ) ≤ 1 - t), sq_nonneg (t*(1-t))]

theorem mixing_le_half (t : ℚ) (h0 : 0 ≤ t) (h1 : t ≤ 1) :
    (1 - fade t) * t + fade t * (1 - t) ≤ 1/2 := by
  unfold fade
  nlinarith [sq_nonneg (t - 1/2), sq_nonneg (t * (t - 1) * (t - 1/2)),
    mul_nonneg (sq_nonneg (t - 1/2)) (mul_nonneg h0 (by linarith : (0:ℚ) ≤ 1 - t)),
    mul_nonneg h0 (by linarith : (0:ℚ) ≤ 1 - t)]

theorem abs_lerp_le (t a b c d : ℚ) (h0 : 0 ≤ t) (h1 : t ≤ 1)
    (ha : |a| ≤ c) (hb : |b| ≤ d) : |lerp t a b| ≤ (1 - t) * c + t * d := by
  unfold lerp
  have he : a + t * (b - a) = (1 - t) * a + t * b := by ring
  rw [he]
  refine le_trans (abs_add _ _) ?_
  rw [abs_mul, abs_mul, abs_of_nonneg (by linarith : (0:ℚ) ≤ 1 - t), abs_of_nonneg h0]
  have hc : (0:ℚ) ≤ c := le_trans (abs_nonneg a) ha
  have hd : (0:ℚ) ≤ d := le_trans (abs_nonneg b) hb
  apply add_le_add
  · exact mul_le_mul_of_nonneg_left ha (by linarith)
  · exact mul_le_mul_of_nonneg_left hb h0

theorem interp_abs_le (h1 h2 h3 h4 : Nat) (xf yf : ℚ)
    (hx0 : 0 ≤ xf) (hx1 : xf ≤ 1) (hy0 : 0 ≤ yf) (hy1 : yf ≤ 1) :
    |lerp (fade yf) (lerp (fade xf) (grad h1 xf yf) (grad h2 (xf - 1) yf))
        (lerp (fade xf) (grad h3 xf (yf - 1)) (grad h4 (xf - 1) (yf - 1)))| ≤ 1 := by
  obtain ⟨hu0, hu1⟩ := fade_mem xf hx0 hx1
  obtain ⟨hv0, hv1⟩ := fade_mem yf hy0 hy1
  have g1 : |grad h1 xf yf| ≤ xf + yf := by
    have := grad_abs_le h1 xf yf
    rwa [abs_of_nonneg hx0, abs_of_nonneg hy0] at this
  have g2 : |grad h2 (xf - 1) yf| ≤ (1 - xf) + yf := by
    have := grad_abs_le h2 (xf - 1) yf
    rwa [abs_sub_one_of_mem xf hx1, abs_of_nonneg hy0] at this
  have g3 : |grad h3 xf (yf - 1)| ≤ xf + (1 - yf) := by
    have := grad_abs_le h3 xf (yf - 1)
    rwa [abs_of_nonneg hx0, abs_sub_one_of_mem yf hy1] at this
  have g4 : |grad h4 (xf - 1) (yf - 1)| ≤ (1 - xf) + (1 - yf) := by
    have := grad_abs_le h4 (xf - 1) (yf - 1)
    rwa [abs_sub_one_of_mem xf hx1, abs_sub_one_of_mem yf hy1] at this
  have hS := mixing_le_half xf hx0 hx1
  have hT := mixing_le_half yf hy0 hy1
  have b1 : |lerp (fade xf) (grad h1 xf yf) (grad h2 (xf - 1) yf)| ≤
      (1 - fade xf) * (xf + yf) + fade xf * ((1 - xf) + yf) :=
    abs_lerp_le _ _ _ _ _ hu0 hu1 g1 g2
  have b2 : |lerp (fade xf) (grad h3 xf (yf - 1)) (grad h4 (xf - 1) (yf - 1))| ≤
      (1 - fade xf) * (xf + (1 - yf)) + fade xf * ((1 - xf) + (1 - yf)) :=
    abs_lerp_le _ _ _ _ _ hu0 hu1 g3 g4
  have btop := abs_lerp_le (fade yf) _ _ _ _ hv0 hv1 b1 b2
  refine le_trans btop ?_
  nlinarith [hS, hT, hv0, hv1]

theorem noise_mem (x y : ℚ) : 0 ≤ noise x y ∧ noise x y ≤ 1 := by
  have hx0 : (0:ℚ) ≤ x - Int.floor x := by linarith [Int.floor_le x]
  have hx1 : x - Int.floor x ≤ 1 := by linarith [Int.lt_floor_add_one x]
  have hy0 : (0:ℚ) ≤ y - Int.floor y := by linarith [Int.floor_le y]
  have hy1 : y - Int.floor y ≤ 1 := by linarith [Int.lt_floor_add_one y]
  have h := interp_abs_le
    (permTable (permTable ((Int.floor x % 256).toNat) + (Int.floor y % 256).toNat))
    (permTable (permTable ((Int.floor x % 256).toNat + 1) + (Int.floor y % 256).toNat))
    (permTable (permTable ((Int.floor x % 256).toNat) + (Int.floor y % 256).toNat + 1))
    (permTable (permTable ((Int.floor x % 256).toNat + 1) + (Int.floor y % 256).toNat + 1))
    (x - Int.floor x) (y - Int.floor y) hx0 hx1 hy0 hy1
  rw [abs_le] at h
  unfold noise
  constructor
  · simp only []
    linarith [h.1]
  · simp only []
    linarith [h.2]


theorem getHeightAt_mem (x y : Int) : 0 ≤ getHeightAt x y ∧ getHeightAt x y ≤ 1 := by
  unfold getHeightAt
  simp only [List.range_succ, List.range_zero, List.nil_append, List.cons_append,
    List.foldl_cons, List.foldl_nil, List.foldl_append]
  norm_num
  have b0 := noise_mem (((x:ℚ) + 14) * (1 / 20)) (((y:ℚ) + 24) * (1 / 20))
  have b1 := noise_mem (((x:ℚ) + 14) * (1 / 10)) (((y:ℚ) + 24) * (1 / 10))
  have b2 := noise_mem (((x:ℚ) + 14) * (1 / 5)) (((y:ℚ) + 24) * (1 / 5))
  have b3 := noise_mem (((x:ℚ) + 14) * (2 / 5)) (((y:ℚ) + 24) * (2 / 5))
  constructor
  · apply div_nonneg _ (by norm_num)
    linarith [b0.1, b1.1, b2.1, b3.1]
  · rw [div_le_one (by norm_num)]
    linarith [b0.2, b1.2, b2.2, b3.2]

/-- C6: every octave's Perlin noise sample lies in [0,1], and `getHeightAt`
(the octave sum normalized by the total amplitude 15/8) lies in [0,1] for
every integer coordinate. -/
theorem claim_C6_height_bounds :
    (∀ a b : ℚ, 0 ≤ noise a b ∧ noise a b ≤ 1) ∧
      (∀ x y : Int, 0 ≤ getHeightAt x y ∧ getHeightAt x y ≤ 1) :=
  ⟨noise_mem, getHeightAt_mem⟩


/-! ## JS request values

JS `parseInt` coerces its argument to a string first; for a finite number
the rendering starts with the sign and the integer part, so `parseInt`
truncates toward zero.  `parseInt` of `undefined`, `null`, booleans and
non-numeric strings is `NaN`, modelled as `none`. -/

inductive JsValue where
  | undef
  | nullv
  | num (q : ℚ)
  | str (s : String)
  | boolean (b : Bool)
deriving DecidableEq, Repr

/-- Truncation toward zero, the effect of `parseInt(String(q))` for a finite
number `q` rendered in plain decimal notation. -/
def jsTrunc (q : ℚ) : Int :=
  if 0 ≤ q then Int.floor q else Int.ceil q

/-- Longest leading digit run after an optional sign; `none` when empty.
JS `parseInt` skips leading whitespace; trailing characters never matter
because parsing stops at the first non-digit. -/
def parseIntString (s : String) : Option Int :=
  let l := s.toList.dropWhile (fun c => c.isWhitespace)
  let core := fun (sign : Int) (cs : List Char) =>
    let d := cs.takeWhile (fun c => c.isDigit)
    if d.isEmpty then none
    else some (sign * (d.foldl (fun acc c => acc * 10 + (c.toNat - 48)) 0 : Nat))
  match l with
  | '-' :: rest => core (-1) rest
  | '+' :: rest => core 1 rest
  | _ => core 1 l

def jsParseInt : JsValue → Option Int
  | .num q => some (jsTrunc q)
  | .str s => parseIntString s
  | _ => none

/-- `x === undefined || x === null`. -/
def jsMissing (v : JsValue) : Prop := v = .undef ∨ v = .nullv

instance (v : JsValue) : Decidable (jsMissing v) := by
  unfold jsMissing; infer_instance

/-- JS falsiness (`!prompt`). -/
def jsFalsy (v : JsValue) : Prop :=
  v = .undef ∨ v = .nullv ∨ v = .num 0 ∨ v = .str "" ∨ v = .boolean false

instance (v : JsValue) : Decidable (jsFalsy v) := by
  unfold jsFalsy; infer_instance

/-! ## The rate-limiter module (`canUserGenerateImage` and friends)

The two persisted JSON arrays are loaded into a JS `Map` keyed by username
(`entries.forEach(set)`, so a later entry overwrites an earlier one); the
lookup therefore returns the last matching entry. -/

structure RateLimitEntry where
  username : String
  lastGeneration : Int
deriving DecidableEq, Repr

structure ActiveGeneration where
  username : String
  startTime : Int
  coordinates : Int × Int
deriving DecidableEq, Repr

structure LedgerState where
  rateLimits : List RateLimitEntry
  activeGenerations : List ActiveGeneration
deriving DecidableEq, Repr

/-- Last-match lookup, the net effect of building a `Map` with
`entries.forEach(e => map.set(e.username, e))` and reading one key. -/
def lookupRateLimit : List RateLimitEntry → String → Option RateLimitEntry
  | [], _ => none
  | e :: rest, u =>
    match lookupRateLimit rest u with
    | some r => some r
    | none => if e.username = u then some e else none

def lookupActive : List ActiveGeneration → String → Option ActiveGeneration
  | [], _ => none
  | e :: rest, u =>
    match lookupActive rest u with
    | some r => some r
    | none => if e.username = u then some e else none

/-- `Map.set` on the stored array: replace in place when the key is present,
append otherwise. -/
def setRateLimit (l : List RateLimitEntry) (u : String) (t : Int) :
    List RateLimitEntry :=
  if ∃ e ∈ l, e.username = u then
    l.map (fun e => if e.username = u then ⟨u, t⟩ else e)
  else l ++ [⟨u, t⟩]

def EXEMPT_USERNAME : String := "Marcel.Ullrich"

def RATE_LIMIT_SECONDS : Int := 60

/-- `Math.ceil(t / d)` for integer millisecond values (`d > 0`). -/
def jsCeilDiv (t d : Int) : Int := -((-t) / d)

/-- Stale active generations (older than 5 minutes) are purged. -/
def cleanupStaleActiveGenerations (now : Int) (st : LedgerState) : LedgerState :=
  { st with activeGenerations :=
      st.activeGenerations.filter (fun e => ¬ (300000 < now - e.startTime)) }

inductive CanGenResult where
  | allowed
  | generating (coordinates : Int × Int)
  | rateLimited (timeUntilNext : Int)
deriving DecidableEq, Repr

/-- `canUserGenerateImage`: stale cleanup, exempt bypass, concurrent-lock
check (when enabled), then the 60-second rate-limit window with the
remaining wait returned in seconds, rounded up. -/
def canUserGenerateImage (preventConcurrent : Bool) (now : Int)
    (st : LedgerState) (u : String) : CanGenResult × LedgerState :=
  let st1 := cleanupStaleActiveGenerations now st
  if u = EXEMPT_USERNAME then (.allowed, st1)
  else
    let rateCheck : CanGenResult × LedgerState :=
      match lookupRateLimit st1.rateLimits u with
      | none => (.allowed, st1)
      | some e =>
        let timeUntilNext := RATE_LIMIT_SECONDS * 1000 - (now - e.lastGeneration)
        if 0 < timeUntilNext then (.rateLimited (jsCeilDiv timeUntilNext 1000), st1)
        else (.allowed, st1)
    if preventConcurrent then
      match lookupActive st1.activeGenerations u with
      | some a => (.generating a.coordinates, st1)
      | none => rateCheck
    else rateCheck

/-- `recordImageGeneration` of the rate-limiter module: store the current
timestamp for the user (skipped for the exempt user). -/
def recordImageGeneration (now : Int) (st : LedgerState) (u : String) :
    LedgerState :=
  if u = EXEMPT_USERNAME then st
  else { st with rateLimits := setRateLimit st.rateLimits u now }

/-! ## Filesystem model and TileStore helpers (backend/src/index.ts)

Directories are modelled as lists of file names.  The rate-limiter state
(`LedgerState`) is kept separate: its JSON documents live in the logs
directory, but no route in index.ts ever reads or writes them — in
particular `generateTile` below takes no `LedgerState` at all, mirroring
the absence of any rate-limiter import or call in the handler. -/

structure FsState where
  images : List String
  thumbnails : List String
  templates : List String
  metadataFiles : List String
  coordImages : List String
  logs : List String
deriving DecidableEq, Repr

/-- The file-name key `"x_y" ++ ext` used throughout index.ts. -/
def imageName (x y : Int) (ext : String) : String :=
  toString x ++ "_" ++ toString y ++ ext

/-- The existence check used everywhere: one of the three raster encodings
is present in the images directory. -/
def tileExists (st : FsState) (x y : Int) : Prop :=
  imageName x y ".jpg" ∈ st.images ∨ imageName x y ".png" ∈ st.images ∨
    imageName x y ".svg" ∈ st.images

instance (st : FsState) (x y : Int) : Decidable (tileExists st x y) := by
  unfold tileExists; infer_instance

/-- The adjacency eligibility test: some coordinate within radius two of the
target has an existing tile. -/
def hasNeighborWithinTwo (st : FsState) (x y : Int) : Prop :=
  ∃ n ∈ getNeighborsWithinRadiusTwo x y, tileExists st n.x n.y

instance (st : FsState) (x y : Int) : Decidable (hasNeighborWithinTwo st x y) := by
  unfold hasNeighborWithinTwo; infer_instance

/-! ## Biome template resolution (terrain.ts `getBiomeTemplatePath`) -/

/-- The ordered threshold table of `getBiomeTemplatePath`. -/
def biomeEntries : List (ℚ × String) :=
  [(1/2, "water.png"), (51/100, "sand.png"), (3/5, "gras.png"),
   (13/20, "mountain.png"), (7/4, "snow.png")]

/-- The loop body: the FIRST entry whose threshold is not exceeded is tried;
if its asset file is absent the loop `break`s — later entries are never
tried — and the result is `none`. -/
def biomeLookup (height : ℚ) (templatesDir : List String) :
    List (ℚ × String) → Option String
  | [] => none
  | (thr, file) :: rest =>
    if height ≤ thr then (if file ∈ templatesDir then some file else none)
    else biomeLookup height templatesDir rest

def getBiomeTemplatePath (height : ℚ) (templatesDir : List String) :
    Option String :=
  biomeLookup height templatesDir biomeEntries

theorem biomeLookup_nil (h : ℚ) (l : List (ℚ × String)) :
    biomeLookup h [] l = none := by
  induction l with
  | nil => rfl
  | cons e rest ih =>
    obtain ⟨thr, file⟩ := e
    unfold biomeLookup
    split_ifs with h1 h2
    · exact absurd h2 (List.not_mem_nil file)
    · rfl
    · exact ih

theorem getBiomeTemplatePath_nil (h : ℚ) : getBiomeTemplatePath h [] = none :=
  biomeLookup_nil h biomeEntries

/-! ## resolveHexImage and the single-hexagon GET route -/

/-- Boolean oracles for the subprocess/provider collaborators of a request. -/
structure GenEnv where
  magickOk : Bool
  genCoordOk : Bool
  jpgConvertOk : Bool
  maskConvertOk : Bool
  apiKeyPresent : Bool
  providerThrows : Bool
  providerStatusGe400 : Bool
  urlPresent : Bool
  downloadOk : Bool
  extractOk : Bool
  metaWriteOk : Bool
  thumbOk : Bool
deriving DecidableEq, Repr

/-- The shared tail of `resolveHexImage`: full image (jpg, png, svg), then
the biome template for `getHeightAt`, else `none`. -/
def fallbackFull (st : FsState) (x y : Int) : Option (String × String) × FsState :=
  if imageName x y ".jpg" ∈ st.images then (some (imageName x y ".jpg", "image/jpeg"), st)
  else if imageName x y ".png" ∈ st.images then (some (imageName x y ".png", "image/png"), st)
  else if imageName x y ".svg" ∈ st.images then (some (imageName x y ".svg", "image/svg+xml"), st)
  else
    match getBiomeTemplatePath (getHeightAt x y) st.templates with
    | some f => (some (f, "image/png"), st)
    | none => (none, st)

/-- `resolveHexImage` from index.ts: stored thumbnail (jpg, png, svg), then
an on-the-fly thumbnail derived from an existing full image by the `magick`
subprocess and persisted (a subprocess failure is caught and falls through),
then the full image, then the biome template.  There is no synthesized
placeholder in this helper: when nothing applies the result is `none`. -/
def resolveHexImage (env : GenEnv) (st : FsState) (x y : Int)
    (wantThumbnail : Bool) : Option (String × String) × FsState :=
  if wantThumbnail then
    if imageName x y ".jpg" ∈ st.thumbnails then (some (imageName x y ".jpg", "image/jpeg"), st)
    else if imageName x y ".png" ∈ st.thumbnails then (some (imageName x y ".png", "image/png"), st)
    else if imageName x y ".svg" ∈ st.thumbnails then (some (imageName x y ".svg", "image/svg+xml"), st)
    else if tileExists st x y then
      if env.magickOk then
        (some (imageName x y ".jpg", "image/jpeg"),
         { st with thumbnails := st.thumbnails ++ [imageName x y ".jpg"] })
      else fallbackFull st x y
    else fallbackFull st x y
  else fallbackFull st x y

/-- Responses of the GET `/api/hexagon/:x/:y` serving chain. -/
inductive HexResponse where
  | file (name contentType : String)
  | svgPlaceholder (x y : Int)
deriving DecidableEq, Repr

/-- The serving chain of GET `/api/hexagon/:x/:y` (after coordinate parsing,
`checkExists` not requested): stored thumbnail, on-the-fly thumbnail, full
image, biome template, legacy `hexagon_template.*`, and finally the SVG
hexagon synthesized in memory — the guaranteed bottom of THIS route. -/
def serveHexagon (env : GenEnv) (st : FsState) (x y : Int)
    (thumbnailParam : Bool) : HexResponse × FsState :=
  let biomeOrBelow : FsState → HexResponse × FsState := fun st' =>
    match getBiomeTemplatePath (getHeightAt x y) st'.templates with
    | some f => (.file f "image/png", st')
    | none =>
      if "hexagon_template.jpg" ∈ st'.templates then (.file "hexagon_template.jpg" "image/jpeg", st')
      else if "hexagon_template.png" ∈ st'.templates then (.file "hexagon_template.png" "image/png", st')
      else if "hexagon_template.svg" ∈ st'.templates then (.file "hexagon_template.svg" "image/svg+xml", st')
      else (.svgPlaceholder x y, st')
  let fullOrBelow : FsState → HexResponse × FsState := fun st' =>
    if imageName x y ".jpg" ∈ st'.images then (.file (imageName x y ".jpg") "image/jpeg", st')
    else if imageName x y ".png" ∈ st'.images then (.file (imageName x y ".png") "image/png", st')
    else if imageName x y ".svg" ∈ st'.images then (.file (imageName x y ".svg") "image/svg+xml", st')
    else biomeOrBelow st'
  if thumbnailParam then
    if imageName x y ".jpg" ∈ st.thumbnails then (.file (imageName x y ".jpg") "image/jpeg", st)
    else if imageName x y ".png" ∈ st.thumbnails then (.file (imageName x y ".png") "image/png", st)
    else if imageName x y ".svg" ∈ st.thumbnails then (.file (imageName x y ".svg") "image/svg+xml", st)
    else if tileExists st x y then
      if env.magickOk then
        (.file (imageName x y ".jpg") "image/jpeg",
         { st with thumbnails := st.thumbnails ++ [imageName x y ".jpg"] })
      else fullOrBelow st
    else fullOrBelow st
  else fullOrBelow st

/-! ## The generate-tile pipeline (POST /api/generate-tile) -/

inductive GenResponse where
  | missingFields        -- 400, missing x / y / prompt
  | invalidCoordinates   -- 400, parseInt gave NaN
  | notAdjacent          -- 403
  | alreadyExists        -- 409
  | apiKeyMissing        -- 500
  | generationFailed     -- 500, provider status >= 400
  | noImageUrl           -- 500
  | internalError        -- 500, caught exception
  | success
deriving DecidableEq, Repr

/-- The temp file names of one generation request. -/
def coordName (x y : Int) (ext : String) : String :=
  "coordinate_" ++ toString x ++ "_" ++ toString y ++ ext

/-- The temp-file cleanup run on both the success path and the catch path:
delete the coordinate context image (png and jpg) and the converted
`templates/mask.jpg`, each only if present (`erase` is a no-op otherwise). -/
def cleanupTemp (st : FsState) (x y : Int) : FsState :=
  { st with
    coordImages := (st.coordImages.erase (coordName x y ".png")).erase (coordName x y ".jpg"),
    templates := st.templates.erase "mask.jpg" }

/-- The POST `/api/generate-tile` handler from index.ts (after `requireAuth`).
Result: response, final filesystem state, and whether the external provider
was called.  Checks in source order: missing fields, `parseInt` NaN, the
radius-two adjacency rule, then tile existence; only then do side effects
start.  The rate-limiter module is never consulted: the handler does not
read `st.ledger`, and the authenticated username flows only into the
metadata document, whose content is not modelled. -/
def generateTile (env : GenEnv) (st : FsState) (x y prompt : JsValue)
    (_username : String) : GenResponse × FsState × Bool :=
  if jsMissing x ∨ jsMissing y ∨ jsFalsy prompt then (.missingFields, st, false)
  else
    match jsParseInt x, jsParseInt y with
    | some xn, some yn =>
      if ¬ hasNeighborWithinTwo st xn yn then (.notAdjacent, st, false)
      else if tileExists st xn yn then (.alreadyExists, st, false)
      else if ¬ env.genCoordOk then (.internalError, cleanupTemp st xn yn, false)
      else
        let st1 := { st with coordImages := st.coordImages ++ [coordName xn yn ".png"] }
        if ¬ env.jpgConvertOk then (.internalError, cleanupTemp st1 xn yn, false)
        else
          let st2 := { st1 with coordImages := st1.coordImages ++ [coordName xn yn ".jpg"] }
          let st3 := if "mask.png" ∈ st2.templates ∧ env.maskConvertOk = true
            then { st2 with templates := st2.templates ++ ["mask.jpg"] } else st2
          if ¬ env.apiKeyPresent then (.apiKeyMissing, st3, false)
          else if env.providerThrows then (.internalError, cleanupTemp st3 xn yn, true)
          else
            let st4 := { st3 with logs := st3.logs ++ ["image_generation.log"] }
            if env.providerStatusGe400 then (.generationFailed, st4, true)
            else if ¬ env.urlPresent then (.noImageUrl, st4, true)
            else if ¬ env.downloadOk then (.internalError, cleanupTemp st4 xn yn, true)
            else
              let st5 := { st4 with images := st4.images ++ [imageName xn yn "_org.png"] }
              let st6 := if env.extractOk then
                  { st5 with images :=
                      (st5.images.erase (imageName xn yn "_org.png")) ++ [imageName xn yn ".png"] }
                else st5
              let st7 := if env.metaWriteOk then
                  { st6 with metadataFiles := st6.metadataFiles ++ [imageName xn yn ".json"] }
                else st6
              let st8 := if env.thumbOk then
                  { st7 with thumbnails := st7.thumbnails ++ [imageName xn yn ".jpg"] }
                else st7
              (.success, cleanupTemp st8 xn yn, true)
    | _, _ => (.invalidCoordinates, st, false)

/-! ## The batch endpoint (POST /api/hexagons/batch) -/

structure BatchItem where
  x : Int
  y : Int
  contentType : String
deriving DecidableEq, Repr

/-- The per-item loop of the batch endpoint: entries whose x or y parses to
NaN are skipped, entries with no resolvable image are skipped, resolved
entries are appended; the state is threaded because `resolveHexImage` can
persist an on-the-fly thumbnail. -/
def batchLoop (env : GenEnv) (wantThumbnail : Bool) :
    List (JsValue × JsValue) → FsState → List BatchItem → List BatchItem × FsState
  | [], st, acc => (acc, st)
  | (vx, vy) :: rest, st, acc =>
    match jsParseInt vx, jsParseInt vy with
    | some xn, some yn =>
      match resolveHexImage env st xn yn wantThumbnail with
      | (some (_, ct), st') => batchLoop env wantThumbnail rest st' (acc ++ [⟨xn, yn, ct⟩])
      | (none, st') => batchLoop env wantThumbnail rest st' acc
    | _, _ => batchLoop env wantThumbnail rest st acc

/-- POST `/api/hexagons/batch`: truncate to the first `MAX_BATCH = 500`
entries, default `wantThumbnail` to true unless `thumbnail === false`, and
run the loop. -/
def hexagonsBatch (env : GenEnv) (st : FsState)
    (coords : List (JsValue × JsValue)) (thumbnail : JsValue) :
    List BatchItem × FsState :=
  batchLoop env (if thumbnail = .boolean false then false else true)
    (coords.take 500) st []

/-! ## Concrete environments and states for the endpoint claims -/

/-- Every collaborator succeeds (and the provider returns a result URL). -/
def allOk : GenEnv :=
  { magickOk := true, genCoordOk := true, jpgConvertOk := true,
    maskConvertOk := true, apiKeyPresent := true, providerThrows := false,
    providerStatusGe400 := false, urlPresent := true, downloadOk := true,
    extractOk := true, metaWriteOk := true, thumbOk := true }

/-- As `allOk`, but the center-hexagon extraction fails (claim C9). -/
def envExtractFail : GenEnv := { allOk with extractOk := false }

/-- A filesystem with no stored files at all. -/
def emptyFs : FsState :=
  { images := [], thumbnails := [], templates := [], metadataFiles := [],
    coordImages := [], logs := [] }

/-- A filesystem whose only content is a single seed tile. -/
def seedFs (x y : Int) : FsState := { emptyFs with images := [imageName x y ".jpg"] }

/-! ## Ledger lookup lemmas (for claim C1) -/

theorem lookupRateLimit_eq_none (l : List RateLimitEntry) (u : String)
    (h : ∀ e ∈ l, e.username ≠ u) : lookupRateLimit l u = none := by
  induction l with
  | nil => rfl
  | cons e rest ih =>
    unfold lookupRateLimit
    rw [ih (fun e' he' => h e' (List.mem_cons_of_mem _ he'))]
    exact if_neg (h e (List.mem_cons_self _ _))

theorem lookupRateLimit_map_set (l : List RateLimitEntry) (u : String) (t : Int)
    (h : ∃ e ∈ l, e.username = u) :
    lookupRateLimit (l.map (fun e => if e.username = u then ⟨u, t⟩ else e)) u
      = some ⟨u, t⟩ := by
  induction l with
  | nil => simp at h
  | cons e rest ih =>
    simp only [List.map_cons]
    unfold lookupRateLimit
    by_cases hr : ∃ e' ∈ rest, e'.username = u
    · rw [ih hr]
    · push_neg at hr
      have hmap : rest.map (fun e => if e.username = u then (⟨u, t⟩ : RateLimitEntry) else e)
          = rest := by
        conv_rhs => rw [← List.map_id rest]
        exact List.map_congr_left (fun e' he' => by rw [if_neg (hr e' he')]; rfl)
      have he : e.username = u := by
        rcases h with ⟨e', he', hu⟩
        rcases List.mem_cons.mp he' with h1 | h1
        · rw [← h1]; exact hu
        · exact absurd hu (hr e' h1)
      rw [hmap, lookupRateLimit_eq_none rest u hr]
      simp [if_pos he, he]

theorem lookupRateLimit_append (l1 l2 : List RateLimitEntry) (u : String) :
    lookupRateLimit (l1 ++ l2) u =
      match lookupRateLimit l2 u with
      | some r => some r
      | none => lookupRateLimit l1 u := by
  induction l1 with
  | nil => cases h : lookupRateLimit l2 u <;> simp [h, lookupRateLimit]
  | cons e rest ih =>
    simp only [List.cons_append, lookupRateLimit]
    cases h2 : lookupRateLimit l2 u <;> cases hr : lookupRateLimit rest u <;>
      (simp only [List.append_eq]
       rw [ih, h2, hr]
       try rfl)

theorem lookupRateLimit_set (l : List RateLimitEntry) (u : String) (t : Int) :
    lookupRateLimit (setRateLimit l u t) u = some ⟨u, t⟩ := by
  unfold setRateLimit
  split_ifs with h
  · exact lookupRateLimit_map_set l u t h
  · rw [lookupRateLimit_append]
    simp [lookupRateLimit]

/-- After `recordImageGeneration` stamps time `now` for a non-exempt user
with no surviving active-generation record, `canUserGenerateImage` at any
time `later` within the next 60 seconds refuses with a positive rounded-up
wait of at most 60 seconds. -/
theorem canGen_refuses_within_window (now later : Int) (st : LedgerState)
    (u : String) (hu : u ≠ EXEMPT_USERNAME)
    (hact : lookupActive
      (cleanupStaleActiveGenerations later
        (recordImageGeneration now st u)).activeGenerations u = none)
    (h0 : 0 ≤ later - now) (h1 : later - now < 60000) :
    ∃ t, (canUserGenerateImage true later (recordImageGeneration now st u) u).1
        = .rateLimited t ∧ 0 < t ∧ t ≤ 60 := by
  have hR : RATE_LIMIT_SECONDS = 60 := rfl
  have hrl : (cleanupStaleActiveGenerations later
      (recordImageGeneration now st u)).rateLimits
      = setRateLimit st.rateLimits u now := by
    unfold cleanupStaleActiveGenerations recordImageGeneration
    rw [if_neg hu]
  unfold canUserGenerateImage
  dsimp only
  rw [if_neg hu, if_pos rfl, hact, hrl, lookupRateLimit_set]
  dsimp only
  simp only [hR]
  rw [if_pos (by omega : (0:Int) < 60 * 1000 - (later - now))]
  refine ⟨_, rfl, ?_, ?_⟩ <;> (unfold jsCeilDiv; omega)

/-! ## Claim C1: rate limiting of sequential generate-tile requests -/

/-- C1 counterexample: with a seed tile at (0,0), the same user "alice"
issues two sequential generate-tile requests (for (2,0), then (1,0)) and
BOTH succeed: the handler never consults `canUserGenerateImage`, reads no
clock and no ledger, so the second in-window request is not refused. -/
theorem claim_C1_counterexample :
    (generateTile allOk (seedFs 0 0) (.num 2) (.num 0) (.str "a tree") "alice").1
        = .success ∧
    (generateTile allOk
        (generateTile allOk (seedFs 0 0) (.num 2) (.num 0)
          (.str "a tree") "alice").2.1
        (.num 1) (.num 0) (.str "a house") "alice").1 = .success := by
  decide

/-- C1 amended: the rate-limiter module itself implements the refusal —
after `recordImageGeneration` stamps a non-exempt user, a
`canUserGenerateImage` call within the 60-second window (with no surviving
active-generation record) is refused with a positive `retryAfterSeconds` of
at most the window (it can EQUAL the window when the calls are less than a
second apart).  The generate-tile pipeline, however, never consults the
module: its outcome is independent of the requesting username and it takes
no ledger state at all, so two sequential same-user requests inside the
window can both succeed. -/
theorem claim_C1_amended :
    (∀ (now later : Int) (st : LedgerState) (u : String),
        u ≠ EXEMPT_USERNAME →
        lookupActive (cleanupStaleActiveGenerations later
          (recordImageGeneration now st u)).activeGenerations u = none →
        0 ≤ later - now → later - now < 60000 →
        ∃ t, (canUserGenerateImage true later
            (recordImageGeneration now st u) u).1 = .rateLimited t ∧
          0 < t ∧ t ≤ 60) ∧
    (∀ env st x y p u1 u2,
        generateTile env st x y p u1 = generateTile env st x y p u2) :=
  ⟨canGen_refuses_within_window, fun _ _ _ _ _ _ _ => rfl⟩

/-- Witness for `claim_C1_amended` at concrete inputs: user "alice" recorded
at time 0 and re-checked at time 30000 (30s later), and two usernames for
the pipeline-independence conjunct. -/
theorem claim_C1_amended_witness :
    (∃ t, (canUserGenerateImage true 30000
        (recordImageGeneration 0 ⟨[], []⟩ "alice") "alice").1 = .rateLimited t ∧
        0 < t ∧ t ≤ 60) ∧
    generateTile allOk (seedFs 0 0) (.num 2) (.num 0) (.str "a tree") "alice"
      = generateTile allOk (seedFs 0 0) (.num 2) (.num 0) (.str "a tree") "bob" :=
  ⟨claim_C1_amended.1 0 30000 ⟨[], []⟩ "alice" (by decide) (by decide)
      (by decide) (by decide),
    claim_C1_amended.2 allOk (seedFs 0 0) (.num 2) (.num 0) (.str "a tree")
      "alice" "bob"⟩

/-! ## Shared reduction lemmas for the generate-tile claims -/

theorem jsParseInt_int (n : Int) : jsParseInt (.num (n : ℚ)) = some n := by
  show some (jsTrunc (n : ℚ)) = some n
  unfold jsTrunc
  split_ifs with h
  · rw [Int.floor_intCast]
  · rw [Int.ceil_intCast]

/-- Integer JS-number coordinates and a non-empty prompt pass the
missing-fields guard. -/
theorem genTile_guard_num (a b : ℚ) (p : String) (hp : p ≠ "") :
    ¬ (jsMissing (.num a) ∨ jsMissing (.num b) ∨ jsFalsy (.str p)) := by
  simp [jsMissing, jsFalsy, hp]

theorem imageName_ne_of_ext_ne (x y : Int) (e1 e2 : String) (h : e1 ≠ e2) :
    imageName x y e1 ≠ imageName x y e2 := by
  unfold imageName
  intro heq
  apply h
  have h2 := congrArg String.data heq
  simp only [String.data_append] at h2
  exact String.ext (List.append_cancel_left h2)

/-! ## Claim C4: order of the eligibility checks -/

/-- C4 counterexample: the tile (5,5) exists but is isolated (no other tile
within radius two), and the response is the adjacency refusal, not the
"already exists" conflict — the handler checks adjacency FIRST. -/
theorem claim_C4_counterexample :
    tileExists (seedFs 5 5) 5 5 ∧
      generateTile allOk (seedFs 5 5) (.num 5) (.num 5) (.str "p") "alice"
        = (.notAdjacent, seedFs 5 5, false) := by
  decide

/-- C4 amended: the handler evaluates adjacency BEFORE existence: a request
whose target has no existing tile within radius two is answered with the
adjacency refusal even when the target itself exists; the "already exists"
conflict is returned only when some radius-two neighbor tile exists. -/
theorem claim_C4_amended (env : GenEnv) (st : FsState) (x y : Int)
    (p u : String) (hp : p ≠ "") :
    (¬ hasNeighborWithinTwo st x y →
        generateTile env st (.num x) (.num y) (.str p) u
          = (.notAdjacent, st, false)) ∧
    (hasNeighborWithinTwo st x y → tileExists st x y →
        generateTile env st (.num x) (.num y) (.str p) u
          = (.alreadyExists, st, false)) := by
  have hg := genTile_guard_num (x : ℚ) (y : ℚ) p hp
  constructor
  · intro hn
    unfold generateTile
    rw [if_neg hg]
    simp only [jsParseInt_int]
    rw [if_pos hn]
  · intro hn he
    unfold generateTile
    rw [if_neg hg]
    simp only [jsParseInt_int]
    rw [if_neg (not_not_intro hn), if_pos he]

/-- Witness for `claim_C4_amended`: the isolated-tile state of the
counterexample satisfies the first conjunct's hypothesis, a seeded neighbor
state the second's. -/
theorem claim_C4_amended_witness :
    generateTile allOk (seedFs 5 5) (.num 7) (.num 7) (.str "p") "alice"
        = (.notAdjacent, seedFs 5 5, false) ∧
    generateTile allOk
        { emptyFs with images := [imageName 0 0 ".jpg", imageName 2 0 ".jpg"] }
        (.num 0) (.num 0) (.str "p") "alice"
      = (.alreadyExists,
         { emptyFs with images := [imageName 0 0 ".jpg", imageName 2 0 ".jpg"] },
         false) :=
  ⟨(claim_C4_amended allOk (seedFs 5 5) 7 7 "p" "alice" (by decide)).1
      (by decide),
   (claim_C4_amended allOk
      { emptyFs with images := [imageName 0 0 ".jpg", imageName 2 0 ".jpg"] }
      0 0 "p" "alice" (by decide)).2 (by decide) (by decide)⟩

/-! ## Claim C5: input validation and side effects -/

/-- C5 counterexample: the fractional coordinate x = 3.5 is NOT rejected as
an input error — JS `parseInt` truncates it to 3 and the request proceeds
all the way to a successful generation, with side effects and an external
call. -/
theorem claim_C5_counterexample :
    ((Int.floor (mkRat 7 2) : ℚ) ≠ mkRat 7 2) ∧
    (generateTile allOk (seedFs 2 0) (.num (mkRat 7 2)) (.num 0) (.str "p")
        "alice").1 = .success ∧
    (generateTile allOk (seedFs 2 0) (.num (mkRat 7 2)) (.num 0) (.str "p")
        "alice").2.2 = true := by
  decide

/-- C5 amended: requests rejected by the input validation — a missing field,
a falsy (e.g. empty) prompt, or a coordinate whose `parseInt` is NaN — are
answered with an input-error response before any side effect: the
filesystem is unchanged and no external call is made.  Fractional numeric
coordinates, however, are NOT input errors: `parseInt` truncates them
(see the counterexample). -/
theorem claim_C5_amended (env : GenEnv) (st : FsState) (x y p : JsValue)
    (u : String)
    (h : jsMissing x ∨ jsMissing y ∨ jsFalsy p ∨ jsParseInt x = none ∨
      jsParseInt y = none) :
    ((generateTile env st x y p u).1 = .missingFields ∨
      (generateTile env st x y p u).1 = .invalidCoordinates) ∧
    (generateTile env st x y p u).2.1 = st ∧
    (generateTile env st x y p u).2.2 = false := by
  by_cases hm : jsMissing x ∨ jsMissing y ∨ jsFalsy p
  · unfold generateTile
    rw [if_pos hm]
    exact ⟨Or.inl rfl, rfl, rfl⟩
  · have hpn : jsParseInt x = none ∨ jsParseInt y = none := by tauto
    unfold generateTile
    rw [if_neg hm]
    rcases hx : jsParseInt x with _ | xv
    · cases hy : jsParseInt y <;> simp [hx, hy]
    · rcases hy : jsParseInt y with _ | yv
      · simp [hx, hy]
      · exfalso
        rcases hpn with h1 | h1 <;> simp_all

/-- Witness for `claim_C5_amended`: a request whose x coordinate is the
non-numeric string "abc" (parseInt NaN). -/
theorem claim_C5_amended_witness :
    jsParseInt (.str "abc") = none ∧
    (((generateTile allOk emptyFs (.str "abc") (.num 0) (.str "p")
          "alice").1 = .missingFields ∨
      (generateTile allOk emptyFs (.str "abc") (.num 0) (.str "p")
          "alice").1 = .invalidCoordinates) ∧
     (generateTile allOk emptyFs (.str "abc") (.num 0) (.str "p")
        "alice").2.1 = emptyFs ∧
     (generateTile allOk emptyFs (.str "abc") (.num 0) (.str "p")
        "alice").2.2 = false) :=
  ⟨by decide,
   claim_C5_amended allOk emptyFs (.str "abc") (.num 0) (.str "p") "alice"
     (by decide)⟩

/-! ## Claim C9: extraction failure still reports success -/

/-- C9: when the provider call succeeds but the center-hexagon extraction
fails, the handler still answers success, writes the metadata document and a
thumbnail, and saves the raster only under the `{x}_{y}_org.png` name; since
every existence check looks only for `{x}_{y}.jpg`/`.png`/`.svg`, the
coordinate is still reported as not existing and so remains eligible for
another generation. -/
theorem claim_C9_extract_failure (st : FsState) (x y : Int) (p u : String)
    (hp : p ≠ "") (hn : hasNeighborWithinTwo st x y)
    (he : ¬ tileExists st x y) :
    (generateTile envExtractFail st (.num x) (.num y) (.str p) u).1
        = .success ∧
    imageName x y "_org.png"
        ∈ (generateTile envExtractFail st (.num x) (.num y) (.str p) u).2.1.images ∧
    imageName x y ".json"
        ∈ (generateTile envExtractFail st (.num x) (.num y) (.str p) u).2.1.metadataFiles ∧
    imageName x y ".jpg"
        ∈ (generateTile envExtractFail st (.num x) (.num y) (.str p) u).2.1.thumbnails ∧
    ¬ tileExists (generateTile envExtractFail st (.num x) (.num y) (.str p) u).2.1 x y := by
  have hg := genTile_guard_num (x : ℚ) (y : ℚ) p hp
  have he1 : imageName x y ".jpg" ∉ st.images := fun hh => he (Or.inl hh)
  have he2 : imageName x y ".png" ∉ st.images := fun hh => he (Or.inr (Or.inl hh))
  have he3 : imageName x y ".svg" ∉ st.images := fun hh => he (Or.inr (Or.inr hh))
  have ne1 : imageName x y ".jpg" ≠ imageName x y "_org.png" :=
    imageName_ne_of_ext_ne x y ".jpg" "_org.png" (by decide)
  have ne2 : imageName x y ".png" ≠ imageName x y "_org.png" :=
    imageName_ne_of_ext_ne x y ".png" "_org.png" (by decide)
  have ne3 : imageName x y ".svg" ≠ imageName x y "_org.png" :=
    imageName_ne_of_ext_ne x y ".svg" "_org.png" (by decide)
  unfold generateTile
  rw [if_neg hg]
  simp only [jsParseInt_int]
  rw [if_neg (not_not_intro hn), if_neg he]
  simp only [envExtractFail, allOk]
  unfold cleanupTemp
  simp only [tileExists, not_true, not_false_iff, if_true, if_false,
    ite_true, ite_false, apply_ite FsState.images,
    apply_ite FsState.metadataFiles, apply_ite FsState.thumbnails, ite_self,
    List.mem_append, List.mem_singleton]
  refine ⟨rfl, ?_, ?_, ?_, ?_⟩
  · simp
  · simp
  · simp
  · simp [he1, he2, he3, ne1, ne2, ne3]

/-- Witness for `claim_C9_extract_failure`: seed tile at (0,0), generation
request for the neighbor (2,0). -/
theorem claim_C9_extract_failure_witness :
    (generateTile envExtractFail (seedFs 0 0) (.num ((2 : Int) : ℚ))
        (.num ((0 : Int) : ℚ)) (.str "p") "alice").1 = .success ∧
    imageName 2 0 "_org.png"
        ∈ (generateTile envExtractFail (seedFs 0 0) (.num ((2 : Int) : ℚ))
            (.num ((0 : Int) : ℚ)) (.str "p") "alice").2.1.images ∧
    imageName 2 0 ".json"
        ∈ (generateTile envExtractFail (seedFs 0 0) (.num ((2 : Int) : ℚ))
            (.num ((0 : Int) : ℚ)) (.str "p") "alice").2.1.metadataFiles ∧
    imageName 2 0 ".jpg"
        ∈ (generateTile envExtractFail (seedFs 0 0) (.num ((2 : Int) : ℚ))
            (.num ((0 : Int) : ℚ)) (.str "p") "alice").2.1.thumbnails ∧
    ¬ tileExists (generateTile envExtractFail (seedFs 0 0)
        (.num ((2 : Int) : ℚ)) (.num ((0 : Int) : ℚ)) (.str "p")
        "alice").2.1 2 0 :=
  claim_C9_extract_failure (seedFs 0 0) 2 0 "p" "alice" (by decide)
    (by decide) (by decide)

/-! ## Claim C3: the fallback chain of resolveHexImage -/

/-- C3 counterexample: on an empty filesystem (no tile, no thumbnail, no
biome template asset) `resolveHexImage` returns `none` — there is no
synthesized-placeholder bottom in this helper; the batch endpoint then
silently omits the coordinate instead of serving a placeholder. -/
theorem claim_C3_counterexample :
    (resolveHexImage allOk emptyFs 0 0 true).1 = none := by
  unfold resolveHexImage fallbackFull
  simp [emptyFs, tileExists, getBiomeTemplatePath_nil]

/-- C3 amended: for a coordinate with no stored tile (and no stored
thumbnail), `resolveHexImage` never raises an error but bottoms out at the
biome template: it returns the template when `getBiomeTemplatePath` finds
its asset and `none` otherwise — the synthesized SVG placeholder exists only
in the single-hexagon GET route, whose chain (thumbnail, on-the-fly
thumbnail, full image, biome template, legacy template, SVG placeholder)
does guarantee a response. -/
theorem claim_C3_amended :
    (∀ (env : GenEnv) (st : FsState) (x y : Int) (w : Bool),
        ¬ tileExists st x y →
        imageName x y ".jpg" ∉ st.thumbnails →
        imageName x y ".png" ∉ st.thumbnails →
        imageName x y ".svg" ∉ st.thumbnails →
        (resolveHexImage env st x y w).1 =
          Option.map (fun f => (f, "image/png"))
            (getBiomeTemplatePath (getHeightAt x y) st.templates)) ∧
    (∀ (env : GenEnv) (st : FsState) (x y : Int) (th : Bool),
        ¬ tileExists st x y →
        imageName x y ".jpg" ∉ st.thumbnails →
        imageName x y ".png" ∉ st.thumbnails →
        imageName x y ".svg" ∉ st.thumbnails →
        getBiomeTemplatePath (getHeightAt x y) st.templates = none →
        "hexagon_template.jpg" ∉ st.templates →
        "hexagon_template.png" ∉ st.templates →
        "hexagon_template.svg" ∉ st.templates →
        (serveHexagon env st x y th).1 = .svgPlaceholder x y) := by
  constructor
  · intro env st x y w he h1 h2 h3
    have he1 : imageName x y ".jpg" ∉ st.images := fun hh => he (Or.inl hh)
    have he2 : imageName x y ".png" ∉ st.images := fun hh => he (Or.inr (Or.inl hh))
    have he3 : imageName x y ".svg" ∉ st.images := fun hh => he (Or.inr (Or.inr hh))
    unfold resolveHexImage fallbackFull
    cases w <;>
      simp only [Bool.false_eq_true, if_false, if_true, ite_true, ite_false,
        if_neg h1, if_neg h2, if_neg h3, if_neg he, if_neg he1, if_neg he2,
        if_neg he3] <;>
      cases hb : getBiomeTemplatePath (getHeightAt x y) st.templates <;>
        simp [hb]
  · intro env st x y th he h1 h2 h3 hb t1 t2 t3
    have he1 : imageName x y ".jpg" ∉ st.images := fun hh => he (Or.inl hh)
    have he2 : imageName x y ".png" ∉ st.images := fun hh => he (Or.inr (Or.inl hh))
    have he3 : imageName x y ".svg" ∉ st.images := fun hh => he (Or.inr (Or.inr hh))
    unfold serveHexagon
    dsimp only
    cases th <;>
      simp only [Bool.false_eq_true, if_false, if_true, ite_true, ite_false,
        if_neg h1, if_neg h2, if_neg h3, if_neg he, if_neg he1, if_neg he2,
        if_neg he3, hb, if_neg t1, if_neg t2, if_neg t3]

/-- Witness for `claim_C3_amended` at the empty filesystem and (0,0). -/
theorem claim_C3_amended_witness :
    (resolveHexImage allOk emptyFs 0 0 false).1 =
      Option.map (fun f => (f, "image/png"))
        (getBiomeTemplatePath (getHeightAt 0 0) emptyFs.templates) ∧
    (serveHexagon allOk emptyFs 0 0 true).1 = .svgPlaceholder 0 0 :=
  ⟨claim_C3_amended.1 allOk emptyFs 0 0 false (by decide) (by decide)
      (by decide) (by decide),
   claim_C3_amended.2 allOk emptyFs 0 0 true (by decide) (by decide)
      (by decide) (by decide) (getBiomeTemplatePath_nil (getHeightAt 0 0))
      (by decide) (by decide) (by decide)⟩

/-! ## Claim C10: the batch endpoint -/

/-- The parsed coordinate of one batch entry, `none` when either component
fails `parseInt` (stated for claim C10). -/
def parsePair (it : JsValue × JsValue) : Option (Int × Int) :=
  match jsParseInt it.1, jsParseInt it.2 with
  | some a, some b => some (a, b)
  | _, _ => none

theorem batchLoop_sublist (env : GenEnv) (w : Bool) :
    ∀ (l : List (JsValue × JsValue)) (st : FsState) (acc : List BatchItem),
      ((batchLoop env w l st acc).1.map (fun r => (r.x, r.y))).Sublist
        ((acc.map (fun r => (r.x, r.y))) ++ l.filterMap parsePair) := by
  intro l
  induction l with
  | nil => intro st acc; simp [batchLoop]
  | cons it rest ih =>
    intro st acc
    obtain ⟨vx, vy⟩ := it
    unfold batchLoop
    rcases hx : jsParseInt vx with _ | a
    · have hpp : parsePair (vx, vy) = none := by simp [parsePair, hx]
      simp only [hx, List.filterMap_cons, hpp]
      exact ih st acc
    · rcases hy : jsParseInt vy with _ | b
      · have hpp : parsePair (vx, vy) = none := by
          cases h2 : jsParseInt vx <;> simp [parsePair, hx, hy]
        simp only [hx, hy, List.filterMap_cons, hpp]
        exact ih st acc
      · have hpp : parsePair (vx, vy) = some (a, b) := by simp [parsePair, hx, hy]
        simp only [hx, hy, List.filterMap_cons, hpp]
        rcases hr : resolveHexImage env st a b w with ⟨o, st2⟩
        rcases o with _ | ⟨f, ct⟩
        · refine (ih st2 acc).trans ?_
          exact List.Sublist.append_left (List.sublist_cons_self _ _) _
        · have := ih st2 (acc ++ [⟨a, b, ct⟩])
          simp only [List.map_append, List.map_cons, List.map_nil,
            List.append_assoc, List.singleton_append] at this
          exact this

/-- C10: the batch endpoint processes at most the first 500 submitted
coordinates (everything past the truncation is ignored), its result has at
most 500 items, and the returned (x,y) list is a subsequence of the parsed
truncated input — entries that fail integer parsing and entries with no
resolvable image are silently omitted, never an error. -/
theorem claim_C10_batch (env : GenEnv) (st : FsState)
    (coords : List (JsValue × JsValue)) (th : JsValue) :
    hexagonsBatch env st coords th = hexagonsBatch env st (coords.take 500) th ∧
    (hexagonsBatch env st coords th).1.length ≤ 500 ∧
    ((hexagonsBatch env st coords th).1.map (fun r => (r.x, r.y))).Sublist
      ((coords.take 500).filterMap parsePair) := by
  have hs := batchLoop_sublist env
    (if th = .boolean false then false else true) (coords.take 500) st []
  simp only [List.map_nil, List.nil_append] at hs
  refine ⟨?_, ?_, hs⟩
  · unfold hexagonsBatch
    rw [List.take_take]
    norm_num
  · have hlen := hs.length_le
    rw [List.length_map] at hlen
    exact le_trans hlen (le_trans (List.length_filterMap_le _ _)
      (List.length_take_le 500 coords))

end Hexagen
